import Mathlib

/-!
Console-session interrupt delivery (`signal_windows.go`).

A shallow embedding of the Go package `process`.  The package talks to the
operating system through three calls of Go's `syscall` package
(`syscall.LoadDLL`, `(*DLL).FindProc`, `(*Proc).Call`).  They are the
environment: an arbitrary `OS σ` over an arbitrary state type `σ`.  Every Go
function of the package becomes a state-passing function on a `World σ`,
which pairs the state of the operating system with the trace of what
happened so far: the environment calls, and the entry and return of the
five primitives and of the two immunity helpers.
-/

namespace SignalWindows

/-! ## Go values -/

/-- An error value produced by package `syscall` (an `Errno` or a `*DLLError`):
opaque to this package, which only formats and wraps it. -/
structure OSError where
  code : Nat
  text : String
  deriving DecidableEq

/-- Go `error` values this package can return.  `errno` is an error coming
from package `syscall`, kept as it is; `wrapError` is what `fmt.Errorf` builds
when the format has a `%w` verb, a message together with the error it wraps;
`errorString` is what it builds when the format has none, a message alone. -/
inductive GoError where
  | errno (e : OSError)
  | wrapError (msg : String) (err : GoError)
  | errorString (s : String)
  deriving DecidableEq

/-- The `Error()` method. -/
def GoError.Error : GoError → String
  | .errno e => e.text
  | .wrapError msg _ => msg
  | .errorString s => s

/-- The call `fmt.Errorf(pre + "%w", e)`. -/
def Errorf_w (pre : String) (e : GoError) : GoError :=
  .wrapError (pre ++ e.Error) e

/-- The call `fmt.Errorf(pre + "%v", e)`. -/
def Errorf_v (pre : String) (e : GoError) : GoError :=
  .errorString (pre ++ e.Error)

/-- Width of `int` and `uintptr` on the Go ports for Windows. -/
inductive WordSize where
  | w32
  | w64
  deriving DecidableEq

/-- Number of bits of a word. -/
def WordSize.bits : WordSize → Nat
  | .w32 => 32
  | .w64 => 64

/-- The conversion `uintptr(x)` of an `int`. -/
def uintptr (ws : WordSize) (x : Int) : Nat :=
  (x % 2 ^ ws.bits).toNat

/-- The constant `syscall.CTRL_C_EVENT`. -/
def CTRL_C_EVENT : Int := 0

/-- The value `*syscall.DLL`. -/
structure DLL where
  Name : String
  Handle : Nat
  deriving DecidableEq

/-- The value `*syscall.Proc`. -/
structure Proc where
  Dll : DLL
  Name : String
  addr : Nat
  deriving DecidableEq

/-- The value a non-nil `*os.Process` points to, of which the package reads
the field `Pid`. -/
structure Process where
  Pid : Int
  deriving DecidableEq

/-! ## The environment -/

/-- A behaviour of the operating system, as package `syscall` reaches it:
loading a library by name gives a handle, resolving a name in a loaded library
gives an address, and calling an address with arguments gives the three
results of `(*Proc).Call`: `r1`, `r2` and the last error. -/
structure OS (σ : Type) where
  word : WordSize
  LoadLibrary : String → σ → Except OSError Nat × σ
  GetProcAddress : Nat → String → σ → Except OSError Nat × σ
  Syscall : Nat → List Nat → σ → (Nat × Nat × OSError) × σ

/-- The functions of the package whose calls the trace records. -/
inductive Fn where
  | GenerateConsoleCtrlEvent
  | SetConsoleCtrlHandler (flag : Bool)
  | RemoveConsoleCtrlHandler
  | RestoreConsoleCtrlHandler
  | FreeConsole
  | AllocConsole
  | AttachConsole (pid : Int)
  deriving DecidableEq

/-- What can be observed of a run. -/
inductive Event where
  | enter (f : Fn)
  | leave (f : Fn) (err : Option GoError)
  | loadDLL (name : String)
  | findProc (d : DLL) (name : String)
  | call (p : Proc) (args : List Nat)
  deriving DecidableEq

/-- The state of the operating system and the trace so far. -/
structure World (σ : Type) where
  os : σ
  trace : List Event

/-- Append an event to the trace. -/
def World.log {σ : Type} (w : World σ) (e : Event) : World σ :=
  ⟨w.os, w.trace ++ [e]⟩

/-- The call `syscall.LoadDLL(name)`. -/
def sysLoadDLL {σ : Type} (os : OS σ) (name : String) (w : World σ) :
    Except OSError DLL × World σ :=
  match os.LoadLibrary name w.os with
  | (.error e, s) => (.error e, ⟨s, w.trace ++ [.loadDLL name]⟩)
  | (.ok h, s) => (.ok ⟨name, h⟩, ⟨s, w.trace ++ [.loadDLL name]⟩)

/-- The call `d.FindProc(name)`. -/
def sysFindProc {σ : Type} (os : OS σ) (d : DLL) (name : String) (w : World σ) :
    Except OSError Proc × World σ :=
  match os.GetProcAddress d.Handle name w.os with
  | (.error e, s) => (.error e, ⟨s, w.trace ++ [.findProc d name]⟩)
  | (.ok a, s) => (.ok ⟨d, name, a⟩, ⟨s, w.trace ++ [.findProc d name]⟩)

/-- The call `p.Call(args...)`. -/
def sysCall {σ : Type} (os : OS σ) (p : Proc) (args : List Nat) (w : World σ) :
    (Nat × Nat × OSError) × World σ :=
  match os.Syscall p.addr args w.os with
  | (r, s) => (r, ⟨s, w.trace ++ [.call p args]⟩)

/-- Record the entry of `f` and its return around its body. -/
def traced {σ : Type} (f : Fn) (body : World σ → Option GoError × World σ)
    (w : World σ) : Option GoError × World σ :=
  let r := body (w.log (.enter f))
  (r.1, r.2.log (.leave f r.1))

/-! ## The package -/

/-- Go `LoadKernel32`. -/
def LoadKernel32 {σ : Type} (os : OS σ) (w : World σ) : Except GoError DLL × World σ :=
  match sysLoadDLL os "kernel32.dll" w with
  | (.error e, w1) => (.error (Errorf_w "loadDLL: " (.errno e)), w1)
  | (.ok d, w1) => (.ok d, w1)

/-- Go `GenerateConsoleCtrlEvent`. -/
def GenerateConsoleCtrlEvent {σ : Type} (os : OS σ) : World σ → Option GoError × World σ :=
  traced .GenerateConsoleCtrlEvent fun w =>
    match LoadKernel32 os w with
    | (.error e, w1) => (some e, w1)
    | (.ok d, w1) =>
      match sysFindProc os d "GenerateConsoleCtrlEvent" w1 with
      | (.error e, w2) => (some (Errorf_w "findProc: " (.errno e)), w2)
      | (.ok p, w2) =>
        match sysCall os p [uintptr os.word CTRL_C_EVENT, 0] w2 with
        | ((r, _, e), w3) =>
          if r = 0 then (some (Errorf_w "generateConsoleCtrlEvent: " (.errno e)), w3)
          else (none, w3)

/-- Go `SetConsoleCtrlHandler`. -/
def SetConsoleCtrlHandler {σ : Type} (os : OS σ) (flag : Bool) :
    World σ → Option GoError × World σ :=
  traced (.SetConsoleCtrlHandler flag) fun w =>
    match LoadKernel32 os w with
    | (.error e, w1) => (some e, w1)
    | (.ok d, w1) =>
      match sysFindProc os d "SetConsoleCtrlHandler" w1 with
      | (.error e, w2) => (some (Errorf_w "findProc: " (.errno e)), w2)
      | (.ok p, w2) =>
        let a : Int := if flag then 1 else 0
        match sysCall os p [0, uintptr os.word a] w2 with
        | ((r, _, e), w3) =>
          if r = 0 then (some (Errorf_w "setConsoleCtrlHandler: " (.errno e)), w3)
          else (none, w3)

/-- Go `RemoveConsoleCtrlHandler`. -/
def RemoveConsoleCtrlHandler {σ : Type} (os : OS σ) : World σ → Option GoError × World σ :=
  traced .RemoveConsoleCtrlHandler (SetConsoleCtrlHandler os true)

/-- Go `RestoreConsoleCtrlHandler`. -/
def RestoreConsoleCtrlHandler {σ : Type} (os : OS σ) : World σ → Option GoError × World σ :=
  traced .RestoreConsoleCtrlHandler (SetConsoleCtrlHandler os false)

/-- Go `FreeConsole`. -/
def FreeConsole {σ : Type} (os : OS σ) : World σ → Option GoError × World σ :=
  traced .FreeConsole fun w =>
    match LoadKernel32 os w with
    | (.error e, w1) => (some e, w1)
    | (.ok d, w1) =>
      match sysFindProc os d "FreeConsole" w1 with
      | (.error e, w2) => (some (Errorf_v "findProc: " (.errno e)), w2)
      | (.ok p, w2) =>
        match sysCall os p [0] w2 with
        | ((r, _, e), w3) =>
          if r = 0 then (some (Errorf_w "freeConsole: " (.errno e)), w3)
          else (none, w3)

/-- Go `AllocConsole`. -/
def AllocConsole {σ : Type} (os : OS σ) : World σ → Option GoError × World σ :=
  traced .AllocConsole fun w =>
    match LoadKernel32 os w with
    | (.error e, w1) => (some e, w1)
    | (.ok d, w1) =>
      match sysFindProc os d "AllocConsole" w1 with
      | (.error e, w2) => (some (Errorf_v "findProc: " (.errno e)), w2)
      | (.ok p, w2) =>
        match sysCall os p [0] w2 with
        | ((r, _, e), w3) =>
          if r = 0 then (some (Errorf_w "allocConsole: " (.errno e)), w3)
          else (none, w3)

/-- Go `AttachConsole`. -/
def AttachConsole {σ : Type} (os : OS σ) (pid : Int) : World σ → Option GoError × World σ :=
  traced (.AttachConsole pid) fun w =>
    match LoadKernel32 os w with
    | (.error e, w1) => (some e, w1)
    | (.ok d, w1) =>
      match sysFindProc os d "AttachConsole" w1 with
      | (.error e, w2) => (some (Errorf_v "findProc: " (.errno e)), w2)
      | (.ok p, w2) =>
        match sysCall os p [uintptr os.word pid] w2 with
        | ((r, _, e), w3) =>
          if r = 0 then (some (Errorf_w "attachConsole: " (.errno e)), w3)
          else (none, w3)

/-- Go `StopProcess`.  The argument is the process `p` points to. -/
def StopProcess {σ : Type} (os : OS σ) (p : Process) (w : World σ) :
    Option GoError × World σ :=
  match FreeConsole os w with
  | (some err, w1) => (some err, w1)
  | (none, w1) =>
    match AttachConsole os p.Pid w1 with
    | (some err, w2) => (some err, w2)
    | (none, w2) =>
      match GenerateConsoleCtrlEvent os w2 with
      | (some err, w3) => (some err, w3)
      | (none, w3) => (none, w3)

/-- Go `SendCtrlC`. -/
def SendCtrlC {σ : Type} (os : OS σ) (w : World σ) : Option GoError × World σ :=
  match RemoveConsoleCtrlHandler os w with
  | (some e, w1) => (some e, w1)
  | (none, w1) =>
    match GenerateConsoleCtrlEvent os w1 with
    | (some e, w2) => (some e, w2)
    | (none, w2) => (none, w2)


/-! ## The console model of the specification -/

/-- Modelled from the spec: the process-wide state the operating system keeps
for the caller (section 3), which is outside the repository: the console
session the caller is attached to, if any, its interrupt-immunity flag, and
the sessions on which an interrupt was broadcast, latest last. -/
structure Console where
  attached : Option Nat
  immune : Bool
  raised : List Nat
  deriving DecidableEq

/-- Modelled from the spec: what the console model depends on besides the
caller: the console session of each process id (none for an id that names no
process with a console), the session `AllocConsole` would create, and whether
the operating system rejects a toggle of the immunity flag. -/
structure Host where
  word : WordSize
  sessionOf : Nat → Option Nat
  fresh : Nat
  rejectToggle : Bool

/-- The last error after a successful call. -/
def errSuccess : OSError := ⟨0, "The operation completed successfully."⟩

/-- The last error after a refused call. -/
def errRefused : OSError := ⟨5, "Access is denied."⟩

/-- The last error of a call on a process without a console, or on a target
without one. -/
def errInvalid : OSError := ⟨6, "The handle is invalid."⟩

/-- Modelled from the spec: the five entry points of the console library
(sections 3, 4.1 and 6).  Detaching fails without a console; attaching and
allocating fail with a console attached, attaching also for a target without a
session; the toggle sets the flag unless the system rejects it; the broadcast
fails without a console.  In `SetConsoleCtrlHandler` the first argument is the
handler and the second the add flag: with a null handler a nonzero flag makes
the caller ignore the interrupt. -/
def Host.Syscall (h : Host) (addr : Nat) (args : List Nat) (s : Console) :
    (Nat × Nat × OSError) × Console :=
  match addr with
  | 1 =>
    match s.attached with
    | none => ((0, 0, errInvalid), s)
    | some _ => ((1, 0, errSuccess), { s with attached := none })
  | 2 =>
    match s.attached, h.sessionOf (args.headD 0) with
    | none, some c => ((1, 0, errSuccess), { s with attached := some c })
    | none, none => ((0, 0, errInvalid), s)
    | some _, _ => ((0, 0, errRefused), s)
  | 3 =>
    match s.attached with
    | none => ((1, 0, errSuccess), { s with attached := some h.fresh })
    | some _ => ((0, 0, errRefused), s)
  | 4 =>
    if h.rejectToggle then ((0, 0, errRefused), s)
    else ((1, 0, errSuccess), { s with immune := decide (args.getD 1 0 ≠ 0) })
  | 5 =>
    match s.attached with
    | none => ((0, 0, errInvalid), s)
    | some c => ((1, 0, errSuccess), { s with raised := s.raised ++ [c] })
  | _ => ((0, 0, errInvalid), s)

/-- Modelled from the spec: the address of each of the five named entry
points of the console library (section 6). -/
def entryPoint (name : String) : Option Nat :=
  if name = "FreeConsole" then some 1
  else if name = "AttachConsole" then some 2
  else if name = "AllocConsole" then some 3
  else if name = "SetConsoleCtrlHandler" then some 4
  else if name = "GenerateConsoleCtrlEvent" then some 5
  else none

/-- Modelled from the spec: the operating system of the console model.  The
console library loads by its name and exposes its five entry points. -/
def Host.toOS (h : Host) : OS Console where
  word := h.word
  LoadLibrary name s :=
    if name = "kernel32.dll" then (.ok 1, s)
    else (.error ⟨126, "The specified module could not be found."⟩, s)
  GetProcAddress _ name s :=
    match entryPoint name with
    | some a => (.ok a, s)
    | none => (.error ⟨127, "The specified procedure could not be found."⟩, s)
  Syscall := h.Syscall

/-- An operating system on which the console library does not load. -/
def noLibrary : OS Unit where
  word := .w64
  LoadLibrary _ s := (.error ⟨126, "The specified module could not be found."⟩, s)
  GetProcAddress _ _ s := (.ok 0, s)
  Syscall _ _ s := ((1, 0, errSuccess), s)

/-- A host of the console model where process 7 has console session 3 and no
other process has one. -/
def demoHost : Host :=
  ⟨.w64, fun n => if n = 7 then some 3 else none, 9, false⟩

/-- A caller attached to console session 1, targetable, with an empty trace. -/
def homeWorld : World Console :=
  ⟨⟨some 1, false, []⟩, []⟩

/-- A caller without a console, targetable, with an empty trace. -/
def bareWorld : World Console :=
  ⟨⟨none, false, []⟩, []⟩

/-! ## Observations on traces -/


/-- The functions entered, in order. -/
def entered : List Event → List Fn
  | [] => []
  | .enter f :: t => f :: entered t
  | _ :: t => entered t

/-- The functions that returned, with what they returned, in order. -/
def returned : List Event → List (Fn × Option GoError)
  | [] => []
  | .leave f r :: t => (f, r) :: returned t
  | _ :: t => returned t

/-- The library names loaded, in order. -/
def loads : List Event → List String
  | [] => []
  | .loadDLL n :: t => n :: loads t
  | _ :: t => loads t

/-- The entry-point names resolved, in order. -/
def finds : List Event → List String
  | [] => []
  | .findProc _ n :: t => n :: finds t
  | _ :: t => finds t

/-- The native calls made, in order: the name of the entry point and the
argument list. -/
def natives : List Event → List (String × List Nat)
  | [] => []
  | .call p a :: t => (p.Name, a) :: natives t
  | _ :: t => natives t

/-- The environment events, in order: the trace without the entries and
returns of the package's functions. -/
def envCalls : List Event → List Event
  | [] => []
  | .enter _ :: t => envCalls t
  | .leave _ _ :: t => envCalls t
  | e :: t => e :: envCalls t

/-- The events a run of `f` from `w` adds to the trace. -/
def emitted {σ α : Type} (f : World σ → α × World σ) (w : World σ) : List Event :=
  (f w).2.trace.drop w.trace.length

/-- An operating system on which the console library loads and none of its
entry points resolves. -/
def noEntryPoints : OS Unit where
  word := .w64
  LoadLibrary _ s := (.ok 1, s)
  GetProcAddress _ _ s := (.error ⟨127, "The specified procedure could not be found."⟩, s)
  Syscall _ _ s := ((1, 0, errSuccess), s)

/-- A world of `noLibrary` and `noEntryPoints` with an empty trace. -/
def blankWorld : World Unit :=
  ⟨(), []⟩

/-! ## Properties of one primitive -/

/-- The primitive `P`, which resolves `name` and calls it with `args`, reports
the return of its entry point: run from `w` with the library loading and the
entry point resolving, it returns nil exactly when the native call returns a
nonzero `r1`, and on a zero `r1` it returns the last error of that call
wrapped under the context `ctx`. -/
def ReportsNativeReturn {σ : Type} (os : OS σ) (P : World σ → Option GoError × World σ)
    (name : String) (args : List Nat) (ctx : String) (w : World σ) : Prop :=
  ∀ (h : Nat) (s1 : σ) (a : Nat) (s2 : σ) (r r2 : Nat) (e : OSError) (s3 : σ),
    os.LoadLibrary "kernel32.dll" w.os = (.ok h, s1) →
    os.GetProcAddress h name s1 = (.ok a, s2) →
    os.Syscall a args s2 = ((r, r2, e), s3) →
    ((P w).1 = none ↔ r ≠ 0) ∧
    (r = 0 → (P w).1 = some (.wrapError (ctx ++ e.text) (.errno e))) ∧
    (P w).1 = (if r = 0 then some (.wrapError (ctx ++ e.text) (.errno e)) else none)

/-- The context the errors of the primitive `P` carry, by cause: a failed load
gives the error of the load wrapped under `loadDLL: `, whatever the primitive;
a failed resolution gives an error whose message is `findProc: ` followed by
the text of the error of the resolution; a zero return gives the last error
of the call wrapped under the primitive's own context `ctx`. -/
def CarriesContext {σ : Type} (os : OS σ) (P : World σ → Option GoError × World σ)
    (name : String) (args : List Nat) (ctx : String) (w : World σ) : Prop :=
  (∀ (e : OSError) (s1 : σ), os.LoadLibrary "kernel32.dll" w.os = (.error e, s1) →
    (P w).1 = some (.wrapError ("loadDLL: " ++ e.text) (.errno e))) ∧
  (∀ (h : Nat) (s1 : σ) (e : OSError) (s2 : σ),
    os.LoadLibrary "kernel32.dll" w.os = (.ok h, s1) →
    os.GetProcAddress h name s1 = (.error e, s2) →
    ∃ g, (P w).1 = some g ∧ g.Error = "findProc: " ++ e.text) ∧
  (∀ (h : Nat) (s1 : σ) (a : Nat) (s2 : σ) (r2 : Nat) (e : OSError) (s3 : σ),
    os.LoadLibrary "kernel32.dll" w.os = (.ok h, s1) →
    os.GetProcAddress h name s1 = (.ok a, s2) →
    os.Syscall a args s2 = ((0, r2, e), s3) →
    (P w).1 = some (.wrapError (ctx ++ e.text) (.errno e)))

/-- The primitive `P` resolves afresh: run from `w`, whatever happened before,
its environment calls are the load of `kernel32.dll`, then, if the load
succeeds, the resolution of `name` in the library just loaded, then, if the
resolution succeeds, the call of the address just resolved with `args`; and
it returns an error when the load or the resolution fails. -/
def ResolvesAfresh {σ : Type} (os : OS σ) (P : World σ → Option GoError × World σ)
    (name : String) (args : List Nat) (w : World σ) : Prop :=
  (∃ (e : OSError) (s1 : σ), os.LoadLibrary "kernel32.dll" w.os = (.error e, s1) ∧
    envCalls (emitted P w) = [.loadDLL "kernel32.dll"] ∧ (P w).1 ≠ none) ∨
  (∃ (h : Nat) (s1 : σ) (e : OSError) (s2 : σ),
    os.LoadLibrary "kernel32.dll" w.os = (.ok h, s1) ∧
    os.GetProcAddress h name s1 = (.error e, s2) ∧
    envCalls (emitted P w) =
      [.loadDLL "kernel32.dll", .findProc ⟨"kernel32.dll", h⟩ name] ∧
    (P w).1 ≠ none) ∨
  (∃ (h : Nat) (s1 : σ) (a : Nat) (s2 : σ),
    os.LoadLibrary "kernel32.dll" w.os = (.ok h, s1) ∧
    os.GetProcAddress h name s1 = (.ok a, s2) ∧
    envCalls (emitted P w) =
      [.loadDLL "kernel32.dll", .findProc ⟨"kernel32.dll", h⟩ name,
        .call ⟨⟨"kernel32.dll", h⟩, name, a⟩ args])

/-- The shape the five primitives share: load the library, resolve `name`,
call it with `args`; `fmtFind` and `fmtCall` build the error of a failed
resolution and of a zero return.  Each primitive is proved equal to an
instance of it (`FreeConsole_eq` and the like), so that the lemmas on
primitives are stated once. -/
def primitive {σ : Type} (os : OS σ) (name : String) (args : List Nat)
    (fmtFind fmtCall : GoError → GoError) (w : World σ) : Option GoError × World σ :=
  match LoadKernel32 os w with
  | (.error e, w1) => (some e, w1)
  | (.ok d, w1) =>
    match sysFindProc os d name w1 with
    | (.error e, w2) => (some (fmtFind (.errno e)), w2)
    | (.ok p, w2) =>
      match sysCall os p args w2 with
      | ((r, _, e), w3) => if r = 0 then (some (fmtCall (.errno e)), w3) else (none, w3)

/-- The three ways a primitive can run from `w`: the load fails, the
resolution fails, or the entry point is called. -/
inductive Ran {σ : Type} (os : OS σ) (f : Fn) (name : String) (args : List Nat)
    (fmtFind fmtCall : GoError → GoError) (w : World σ) :
    Option GoError → World σ → Prop where
  | noLibrary (e : OSError) (s1 : σ)
      (hl : os.LoadLibrary "kernel32.dll" w.os = (.error e, s1)) :
      Ran os f name args fmtFind fmtCall w (some (Errorf_w "loadDLL: " (.errno e)))
        ⟨s1, w.trace ++ [.enter f, .loadDLL "kernel32.dll",
          .leave f (some (Errorf_w "loadDLL: " (.errno e)))]⟩
  | noEntry (h : Nat) (s1 : σ) (e : OSError) (s2 : σ)
      (hl : os.LoadLibrary "kernel32.dll" w.os = (.ok h, s1))
      (hf : os.GetProcAddress h name s1 = (.error e, s2)) :
      Ran os f name args fmtFind fmtCall w (some (fmtFind (.errno e)))
        ⟨s2, w.trace ++ [.enter f, .loadDLL "kernel32.dll",
          .findProc ⟨"kernel32.dll", h⟩ name, .leave f (some (fmtFind (.errno e)))]⟩
  | called (h : Nat) (s1 : σ) (a : Nat) (s2 : σ) (r r2 : Nat) (e : OSError) (s3 : σ)
      (hl : os.LoadLibrary "kernel32.dll" w.os = (.ok h, s1))
      (hf : os.GetProcAddress h name s1 = (.ok a, s2))
      (hc : os.Syscall a args s2 = ((r, r2, e), s3)) :
      Ran os f name args fmtFind fmtCall w
        (if r = 0 then some (fmtCall (.errno e)) else none)
        ⟨s3, w.trace ++ [.enter f, .loadDLL "kernel32.dll",
          .findProc ⟨"kernel32.dll", h⟩ name,
          .call ⟨⟨"kernel32.dll", h⟩, name, a⟩ args,
          .leave f (if r = 0 then some (fmtCall (.errno e)) else none)]⟩

/-- What the trace `t` of one run of a primitive shows. -/
structure Summary (f : Fn) (name : String) (args : List Nat) (r : Option GoError)
    (t : List Event) : Prop where
  entered_eq : entered t = [f]
  returned_eq : returned t = [(f, r)]
  loads_eq : loads t = ["kernel32.dll"]
  finds_or : finds t = [] ∨ finds t = [name]
  natives_or : natives t = [] ∨ natives t = [(name, args)]
  of_ok : r = none → finds t = [name] ∧ natives t = [(name, args)]

/-- A host of the console model that rejects every toggle of the immunity
flag. -/
def strictHost : Host :=
  ⟨.w64, fun n => if n = 7 then some 3 else none, 9, true⟩

/-! ## Lemmas on traces -/

theorem entered_append (a b : List Event) : entered (a ++ b) = entered a ++ entered b := by
  induction a with
  | nil => rfl
  | cons e t ih => cases e <;> simp [entered, ih]

theorem returned_append (a b : List Event) :
    returned (a ++ b) = returned a ++ returned b := by
  induction a with
  | nil => rfl
  | cons e t ih => cases e <;> simp [returned, ih]

theorem loads_append (a b : List Event) : loads (a ++ b) = loads a ++ loads b := by
  induction a with
  | nil => rfl
  | cons e t ih => cases e <;> simp [loads, ih]

theorem finds_append (a b : List Event) : finds (a ++ b) = finds a ++ finds b := by
  induction a with
  | nil => rfl
  | cons e t ih => cases e <;> simp [finds, ih]

theorem natives_append (a b : List Event) : natives (a ++ b) = natives a ++ natives b := by
  induction a with
  | nil => rfl
  | cons e t ih => cases e <;> simp [natives, ih]

theorem envCalls_append (a b : List Event) :
    envCalls (a ++ b) = envCalls a ++ envCalls b := by
  induction a with
  | nil => rfl
  | cons e t ih => cases e <;> simp [envCalls, ih]

theorem natives_envCalls (t : List Event) : natives (envCalls t) = natives t := by
  induction t with
  | nil => rfl
  | cons e t ih => cases e <;> simp [natives, envCalls, ih]

theorem emitted_eq {σ α : Type} (f : World σ → α × World σ) (w : World σ) (t : List Event)
    (h : (f w).2.trace = w.trace ++ t) : emitted f w = t := by
  simp [emitted, h]

/-! ## One primitive -/

theorem traced_primitive_ran {σ : Type} (os : OS σ) (f : Fn) (name : String)
    (args : List Nat) (fmtFind fmtCall : GoError → GoError) (w : World σ) :
    Ran os f name args fmtFind fmtCall w
      (traced f (primitive os name args fmtFind fmtCall) w).1
      (traced f (primitive os name args fmtFind fmtCall) w).2 := by
  rcases hl : os.LoadLibrary "kernel32.dll" w.os with ⟨_ | h, s1⟩
  · rename_i e
    have := @Ran.noLibrary σ os f name args fmtFind fmtCall w e s1 hl
    simpa [traced, primitive, LoadKernel32, sysLoadDLL, World.log, hl] using this
  · rcases hf : os.GetProcAddress h name s1 with ⟨_ | a, s2⟩
    · rename_i e
      have := @Ran.noEntry σ os f name args fmtFind fmtCall w h s1 e s2 hl hf
      simpa [traced, primitive, LoadKernel32, sysLoadDLL, sysFindProc, World.log, hl, hf]
        using this
    · rcases hc : os.Syscall a args s2 with ⟨⟨r, r2, e⟩, s3⟩
      have := @Ran.called σ os f name args fmtFind fmtCall w h s1 a s2 r r2 e s3 hl hf hc
      by_cases hr : r = 0
      · simpa [traced, primitive, LoadKernel32, sysLoadDLL, sysFindProc, sysCall, World.log,
          hl, hf, hc, hr] using this
      · simpa [traced, primitive, LoadKernel32, sysLoadDLL, sysFindProc, sysCall, World.log,
          hl, hf, hc, hr] using this

theorem FreeConsole_eq {σ : Type} (os : OS σ) :
    FreeConsole os = traced .FreeConsole
      (primitive os "FreeConsole" [0] (Errorf_v "findProc: ") (Errorf_w "freeConsole: ")) :=
  rfl

theorem AllocConsole_eq {σ : Type} (os : OS σ) :
    AllocConsole os = traced .AllocConsole
      (primitive os "AllocConsole" [0] (Errorf_v "findProc: ") (Errorf_w "allocConsole: ")) :=
  rfl

theorem AttachConsole_eq {σ : Type} (os : OS σ) (pid : Int) :
    AttachConsole os pid = traced (.AttachConsole pid)
      (primitive os "AttachConsole" [uintptr os.word pid] (Errorf_v "findProc: ")
        (Errorf_w "attachConsole: ")) :=
  rfl

theorem SetConsoleCtrlHandler_eq {σ : Type} (os : OS σ) (flag : Bool) :
    SetConsoleCtrlHandler os flag = traced (.SetConsoleCtrlHandler flag)
      (primitive os "SetConsoleCtrlHandler" [0, uintptr os.word (if flag then 1 else 0)]
        (Errorf_w "findProc: ") (Errorf_w "setConsoleCtrlHandler: ")) :=
  rfl

theorem GenerateConsoleCtrlEvent_eq {σ : Type} (os : OS σ) :
    GenerateConsoleCtrlEvent os = traced .GenerateConsoleCtrlEvent
      (primitive os "GenerateConsoleCtrlEvent" [uintptr os.word CTRL_C_EVENT, 0]
        (Errorf_w "findProc: ") (Errorf_w "generateConsoleCtrlEvent: ")) :=
  rfl


theorem uintptr_zero (ws : WordSize) : uintptr ws 0 = 0 := by
  cases ws <;> rfl

theorem uintptr_one (ws : WordSize) : uintptr ws 1 = 1 := by
  cases ws <;> rfl

theorem FreeConsole_ran {σ : Type} (os : OS σ) (w : World σ) :
    Ran os .FreeConsole "FreeConsole" [0] (Errorf_v "findProc: ") (Errorf_w "freeConsole: ") w
      (FreeConsole os w).1 (FreeConsole os w).2 := by
  rw [FreeConsole_eq]; exact traced_primitive_ran ..

theorem AllocConsole_ran {σ : Type} (os : OS σ) (w : World σ) :
    Ran os .AllocConsole "AllocConsole" [0] (Errorf_v "findProc: ")
      (Errorf_w "allocConsole: ") w (AllocConsole os w).1 (AllocConsole os w).2 := by
  rw [AllocConsole_eq]; exact traced_primitive_ran ..

theorem AttachConsole_ran {σ : Type} (os : OS σ) (pid : Int) (w : World σ) :
    Ran os (.AttachConsole pid) "AttachConsole" [uintptr os.word pid] (Errorf_v "findProc: ")
      (Errorf_w "attachConsole: ") w (AttachConsole os pid w).1 (AttachConsole os pid w).2 := by
  rw [AttachConsole_eq]; exact traced_primitive_ran ..

theorem SetConsoleCtrlHandler_ran {σ : Type} (os : OS σ) (flag : Bool) (w : World σ) :
    Ran os (.SetConsoleCtrlHandler flag) "SetConsoleCtrlHandler" [0, if flag then 1 else 0]
      (Errorf_w "findProc: ") (Errorf_w "setConsoleCtrlHandler: ") w
      (SetConsoleCtrlHandler os flag w).1 (SetConsoleCtrlHandler os flag w).2 := by
  have h := traced_primitive_ran os (.SetConsoleCtrlHandler flag) "SetConsoleCtrlHandler"
    [0, uintptr os.word (if flag then 1 else 0)] (Errorf_w "findProc: ")
    (Errorf_w "setConsoleCtrlHandler: ") w
  rw [← SetConsoleCtrlHandler_eq] at h
  cases flag
  · simpa [uintptr_zero] using h
  · simpa [uintptr_one] using h

theorem GenerateConsoleCtrlEvent_ran {σ : Type} (os : OS σ) (w : World σ) :
    Ran os .GenerateConsoleCtrlEvent "GenerateConsoleCtrlEvent" [0, 0]
      (Errorf_w "findProc: ") (Errorf_w "generateConsoleCtrlEvent: ") w
      (GenerateConsoleCtrlEvent os w).1 (GenerateConsoleCtrlEvent os w).2 := by
  have h := traced_primitive_ran os .GenerateConsoleCtrlEvent "GenerateConsoleCtrlEvent"
    [uintptr os.word CTRL_C_EVENT, 0] (Errorf_w "findProc: ")
    (Errorf_w "generateConsoleCtrlEvent: ") w
  rw [← GenerateConsoleCtrlEvent_eq] at h
  simpa [CTRL_C_EVENT, uintptr_zero] using h

theorem Ran.summary {σ : Type} {os : OS σ} {f : Fn} {name : String} {args : List Nat}
    {fmtFind fmtCall : GoError → GoError} {w w' : World σ} {r : Option GoError}
    (h : Ran os f name args fmtFind fmtCall w r w') :
    ∃ t, w'.trace = w.trace ++ t ∧ Summary f name args r t := by
  cases h with
  | noLibrary e s1 hl =>
    exact ⟨_, rfl, by simp [entered], by simp [returned], by simp [loads],
      by simp [finds], by simp [natives], by simp⟩
  | noEntry h s1 e s2 hl hf =>
    exact ⟨_, rfl, by simp [entered], by simp [returned], by simp [loads],
      by simp [finds], by simp [natives], by simp⟩
  | called h s1 a s2 r r2 e s3 hl hf hc =>
    exact ⟨_, rfl, by simp [entered], by simp [returned], by simp [loads],
      by simp [finds], by simp [natives], by simp [finds, natives]⟩


/-! ## The two orchestrators -/

theorem StopProcess_cases {σ : Type} (os : OS σ) (p : Process) (w : World σ) :
    (∃ e, (FreeConsole os w).1 = some e ∧
      StopProcess os p w = (some e, (FreeConsole os w).2)) ∨
    ((FreeConsole os w).1 = none ∧
      ∃ e, (AttachConsole os p.Pid (FreeConsole os w).2).1 = some e ∧
        StopProcess os p w = (some e, (AttachConsole os p.Pid (FreeConsole os w).2).2)) ∨
    ((FreeConsole os w).1 = none ∧
      (AttachConsole os p.Pid (FreeConsole os w).2).1 = none ∧
      StopProcess os p w =
        GenerateConsoleCtrlEvent os (AttachConsole os p.Pid (FreeConsole os w).2).2) := by
  unfold StopProcess
  rcases h1 : FreeConsole os w with ⟨_ | e1, w1⟩
  · rcases h2 : AttachConsole os p.Pid w1 with ⟨_ | e2, w2⟩
    · rcases h3 : GenerateConsoleCtrlEvent os w2 with ⟨_ | e3, w3⟩ <;> simp [h2, h3]
    · simp [h2]
  · simp

theorem StopProcess_trace {σ : Type} (os : OS σ) (p : Process) (w : World σ) :
    (∃ e t1, Summary .FreeConsole "FreeConsole" [0] (some e) t1 ∧
      (StopProcess os p w).1 = some e ∧ (StopProcess os p w).2.trace = w.trace ++ t1) ∨
    (∃ t1 e t2, Summary .FreeConsole "FreeConsole" [0] none t1 ∧
      Summary (.AttachConsole p.Pid) "AttachConsole" [uintptr os.word p.Pid] (some e) t2 ∧
      (StopProcess os p w).1 = some e ∧
      (StopProcess os p w).2.trace = w.trace ++ (t1 ++ t2)) ∨
    (∃ t1 t2 t3, Summary .FreeConsole "FreeConsole" [0] none t1 ∧
      Summary (.AttachConsole p.Pid) "AttachConsole" [uintptr os.word p.Pid] none t2 ∧
      Summary .GenerateConsoleCtrlEvent "GenerateConsoleCtrlEvent" [0, 0]
        (StopProcess os p w).1 t3 ∧
      (StopProcess os p w).2.trace = w.trace ++ (t1 ++ t2 ++ t3)) := by
  obtain ⟨t1, ht1, s1⟩ := (FreeConsole_ran os w).summary
  obtain ⟨t2, ht2, s2⟩ := (AttachConsole_ran os p.Pid (FreeConsole os w).2).summary
  obtain ⟨t3, ht3, s3⟩ :=
    (GenerateConsoleCtrlEvent_ran os (AttachConsole os p.Pid (FreeConsole os w).2).2).summary
  rcases StopProcess_cases os p w with ⟨e, he, h⟩ | ⟨h1, e, he, h⟩ | ⟨h1, h2, h⟩
  · left
    rw [he] at s1
    exact ⟨e, t1, s1, by rw [h], by rw [h]; exact ht1⟩
  · right; left
    rw [h1] at s1
    rw [he] at s2
    exact ⟨t1, e, t2, s1, s2, by rw [h], by rw [h, ht2, ht1, List.append_assoc]⟩
  · right; right
    rw [h1] at s1
    rw [h2] at s2
    rw [← h] at s3
    refine ⟨t1, t2, t3, s1, s2, s3, ?_⟩
    rw [h, ht3, ht2, ht1, List.append_assoc, List.append_assoc, List.append_assoc]

theorem RemoveConsoleCtrlHandler_trace {σ : Type} (os : OS σ) (w : World σ) :
    ∃ t, Summary (.SetConsoleCtrlHandler true) "SetConsoleCtrlHandler" [0, 1]
        (RemoveConsoleCtrlHandler os w).1 t ∧
      (RemoveConsoleCtrlHandler os w).2.trace =
        w.trace ++ (.enter .RemoveConsoleCtrlHandler :: t ++
          [.leave .RemoveConsoleCtrlHandler (RemoveConsoleCtrlHandler os w).1]) := by
  obtain ⟨t, ht, st⟩ :=
    (SetConsoleCtrlHandler_ran os true (w.log (.enter .RemoveConsoleCtrlHandler))).summary
  refine ⟨t, ?_, ?_⟩
  · simpa [RemoveConsoleCtrlHandler, traced] using st
  · simp only [World.log] at ht
    simp [RemoveConsoleCtrlHandler, traced, World.log, ht]

theorem RestoreConsoleCtrlHandler_trace {σ : Type} (os : OS σ) (w : World σ) :
    ∃ t, Summary (.SetConsoleCtrlHandler false) "SetConsoleCtrlHandler" [0, 0]
        (RestoreConsoleCtrlHandler os w).1 t ∧
      (RestoreConsoleCtrlHandler os w).2.trace =
        w.trace ++ (.enter .RestoreConsoleCtrlHandler :: t ++
          [.leave .RestoreConsoleCtrlHandler (RestoreConsoleCtrlHandler os w).1]) := by
  obtain ⟨t, ht, st⟩ :=
    (SetConsoleCtrlHandler_ran os false (w.log (.enter .RestoreConsoleCtrlHandler))).summary
  refine ⟨t, ?_, ?_⟩
  · simpa [RestoreConsoleCtrlHandler, traced] using st
  · simp only [World.log] at ht
    simp [RestoreConsoleCtrlHandler, traced, World.log, ht]

theorem SendCtrlC_cases {σ : Type} (os : OS σ) (w : World σ) :
    (∃ e, (RemoveConsoleCtrlHandler os w).1 = some e ∧
      SendCtrlC os w = (some e, (RemoveConsoleCtrlHandler os w).2)) ∨
    ((RemoveConsoleCtrlHandler os w).1 = none ∧
      SendCtrlC os w = GenerateConsoleCtrlEvent os (RemoveConsoleCtrlHandler os w).2) := by
  unfold SendCtrlC
  rcases h1 : RemoveConsoleCtrlHandler os w with ⟨_ | e1, w1⟩
  · rcases h2 : GenerateConsoleCtrlEvent os w1 with ⟨_ | e2, w2⟩ <;> simp [h2]
  · simp

theorem SendCtrlC_trace {σ : Type} (os : OS σ) (w : World σ) :
    (∃ e t1, Summary (.SetConsoleCtrlHandler true) "SetConsoleCtrlHandler" [0, 1] (some e) t1 ∧
      (SendCtrlC os w).1 = some e ∧
      (SendCtrlC os w).2.trace = w.trace ++ (.enter .RemoveConsoleCtrlHandler :: t1 ++
        [.leave .RemoveConsoleCtrlHandler (some e)])) ∨
    (∃ t1 t2, Summary (.SetConsoleCtrlHandler true) "SetConsoleCtrlHandler" [0, 1] none t1 ∧
      Summary .GenerateConsoleCtrlEvent "GenerateConsoleCtrlEvent" [0, 0] (SendCtrlC os w).1 t2 ∧
      (SendCtrlC os w).2.trace = w.trace ++ ((.enter .RemoveConsoleCtrlHandler :: t1 ++
        [.leave .RemoveConsoleCtrlHandler none]) ++ t2)) := by
  obtain ⟨t1, s1, ht1⟩ := RemoveConsoleCtrlHandler_trace os w
  obtain ⟨t2, ht2, s2⟩ :=
    (GenerateConsoleCtrlEvent_ran os (RemoveConsoleCtrlHandler os w).2).summary
  rcases SendCtrlC_cases os w with ⟨e, he, h⟩ | ⟨h1, h⟩
  · left
    rw [he] at s1 ht1
    exact ⟨e, t1, s1, by rw [h], by rw [h]; exact ht1⟩
  · right
    rw [h1] at s1 ht1
    rw [← h] at s2
    refine ⟨t1, t2, s1, s2, ?_⟩
    rw [h, ht2, ht1, List.append_assoc]



theorem Ran.of_load_error {σ : Type} {os : OS σ} {f : Fn} {name : String} {args : List Nat}
    {fmtFind fmtCall : GoError → GoError} {w w' : World σ} {r : Option GoError}
    (hran : Ran os f name args fmtFind fmtCall w r w') {e : OSError} {s1 : σ}
    (hl : os.LoadLibrary "kernel32.dll" w.os = (.error e, s1)) :
    r = some (Errorf_w "loadDLL: " (.errno e)) := by
  cases hran with
  | noLibrary e' s1' hl' => rw [hl] at hl'; cases hl'; rfl
  | noEntry h' s1' e' s2' hl' hf' => rw [hl] at hl'; cases hl'
  | called h' s1' a' s2' r' r2' e' s3' hl' hf' hc' => rw [hl] at hl'; cases hl'

theorem Ran.of_find_error {σ : Type} {os : OS σ} {f : Fn} {name : String} {args : List Nat}
    {fmtFind fmtCall : GoError → GoError} {w w' : World σ} {r : Option GoError}
    (hran : Ran os f name args fmtFind fmtCall w r w') {h : Nat} {e : OSError} {s1 s2 : σ}
    (hl : os.LoadLibrary "kernel32.dll" w.os = (.ok h, s1))
    (hf : os.GetProcAddress h name s1 = (.error e, s2)) :
    r = some (fmtFind (.errno e)) := by
  cases hran with
  | noLibrary e' s1' hl' => rw [hl] at hl'; cases hl'
  | noEntry h' s1' e' s2' hl' hf' =>
    rw [hl] at hl'; cases hl'
    rw [hf] at hf'; cases hf'; rfl
  | called h' s1' a' s2' r' r2' e' s3' hl' hf' hc' =>
    rw [hl] at hl'; cases hl'
    rw [hf] at hf'; cases hf'

theorem Ran.of_call {σ : Type} {os : OS σ} {f : Fn} {name : String} {args : List Nat}
    {fmtFind fmtCall : GoError → GoError} {w w' : World σ} {r : Option GoError}
    (hran : Ran os f name args fmtFind fmtCall w r w') {h a r1 r2 : Nat} {e : OSError}
    {s1 s2 s3 : σ}
    (hl : os.LoadLibrary "kernel32.dll" w.os = (.ok h, s1))
    (hf : os.GetProcAddress h name s1 = (.ok a, s2))
    (hc : os.Syscall a args s2 = ((r1, r2, e), s3)) :
    r = if r1 = 0 then some (fmtCall (.errno e)) else none := by
  cases hran with
  | noLibrary e' s1' hl' => rw [hl] at hl'; cases hl'
  | noEntry h' s1' e' s2' hl' hf' =>
    rw [hl] at hl'; cases hl'
    rw [hf] at hf'; cases hf'
  | called h' s1' a' s2' r' r2' e' s3' hl' hf' hc' =>
    rw [hl] at hl'; cases hl'
    rw [hf] at hf'; cases hf'
    rw [hc] at hc'; cases hc'; rfl

theorem Ran.reports {σ : Type} {os : OS σ} {f : Fn} {name : String} {args : List Nat}
    {fmtFind : GoError → GoError} {ctx : String} {P : World σ → Option GoError × World σ}
    {w : World σ}
    (hran : Ran os f name args fmtFind (Errorf_w ctx) w (P w).1 (P w).2) :
    ReportsNativeReturn os P name args ctx w := by
  intro h s1 a s2 r r2 e s3 hl hf hc
  have hr := hran.of_call hl hf hc
  by_cases h0 : r = 0 <;> simp [hr, h0, Errorf_w, GoError.Error]

theorem Ran.carries {σ : Type} {os : OS σ} {f : Fn} {name : String} {args : List Nat}
    {fmtFind : GoError → GoError} {ctx : String} {P : World σ → Option GoError × World σ}
    {w : World σ}
    (hran : Ran os f name args fmtFind (Errorf_w ctx) w (P w).1 (P w).2)
    (hfmt : ∀ e : OSError, (fmtFind (.errno e)).Error = "findProc: " ++ e.text) :
    CarriesContext os P name args ctx w := by
  refine ⟨?_, ?_, ?_⟩
  · intro e s1 hl
    simpa [Errorf_w, GoError.Error] using hran.of_load_error hl
  · intro h s1 e s2 hl hf
    exact ⟨_, hran.of_find_error hl hf, hfmt e⟩
  · intro h s1 a s2 r2 e s3 hl hf hc
    simpa [Errorf_w, GoError.Error] using hran.of_call hl hf hc

theorem Ran.afresh {σ : Type} {os : OS σ} {f : Fn} {name : String} {args : List Nat}
    {fmtFind fmtCall : GoError → GoError} {P : World σ → Option GoError × World σ}
    {w : World σ}
    (hran : Ran os f name args fmtFind fmtCall w (P w).1 (P w).2) :
    ResolvesAfresh os P name args w := by
  unfold ResolvesAfresh emitted
  generalize (P w).1 = r at hran
  generalize (P w).2 = w' at hran
  cases hran with
  | noLibrary e s1 hl =>
    exact Or.inl ⟨e, s1, hl, by simp [envCalls], by simp⟩
  | noEntry h s1 e s2 hl hf =>
    exact Or.inr (Or.inl ⟨h, s1, e, s2, hl, hf, by simp [envCalls], by simp⟩)
  | called h s1 a s2 r r2 e s3 hl hf hc =>
    exact Or.inr (Or.inr ⟨h, s1, a, s2, hl, hf, by simp [envCalls]⟩)

theorem Ran.natives_of_resolved {σ : Type} {os : OS σ} {f : Fn} {name : String}
    {args : List Nat} {fmtFind fmtCall : GoError → GoError}
    {P : World σ → Option GoError × World σ} {w : World σ}
    (hran : Ran os f name args fmtFind fmtCall w (P w).1 (P w).2) {h a : Nat} {s1 s2 : σ}
    (hl : os.LoadLibrary "kernel32.dll" w.os = (.ok h, s1))
    (hf : os.GetProcAddress h name s1 = (.ok a, s2)) :
    natives (emitted P w) = [(name, args)] := by
  unfold emitted
  generalize (P w).1 = r at hran
  generalize (P w).2 = w' at hran
  cases hran with
  | noLibrary e' s1' hl' => rw [hl] at hl'; cases hl'
  | noEntry h' s1' e' s2' hl' hf' =>
    rw [hl] at hl'; cases hl'
    rw [hf] at hf'; cases hf'
  | called h' s1' a' s2' r' r2' e' s3' hl' hf' hc' => simp [natives]

/-- The error of a failed resolution: `FreeConsole`, `AllocConsole` and
`AttachConsole` format it with `%v` and return a message alone, where
`SetConsoleCtrlHandler` and `GenerateConsoleCtrlEvent` format it with `%w` and
return a message together with the error of the resolution. -/
theorem findProc_error_wrapping :
    (FreeConsole noEntryPoints blankWorld).1 =
      some (.errorString "findProc: The specified procedure could not be found.") ∧
    (AllocConsole noEntryPoints blankWorld).1 =
      some (.errorString "findProc: The specified procedure could not be found.") ∧
    (AttachConsole noEntryPoints 7 blankWorld).1 =
      some (.errorString "findProc: The specified procedure could not be found.") ∧
    (GenerateConsoleCtrlEvent noEntryPoints blankWorld).1 =
      some (.wrapError "findProc: The specified procedure could not be found."
        (.errno ⟨127, "The specified procedure could not be found."⟩)) ∧
    (SetConsoleCtrlHandler noEntryPoints true blankWorld).1 =
      some (.wrapError "findProc: The specified procedure could not be found."
        (.errno ⟨127, "The specified procedure could not be found."⟩)) := by
  decide

/-! ## The claims -/

/-- C1: for every process and every behaviour of the operating system,
`StopProcess` enters `FreeConsole`, then `AttachConsole` with the pid of the
process, then `GenerateConsoleCtrlEvent`: the functions it enters are a
non-empty initial part of that list of three (so each is entered at most once
and in that order), each one entered returns, and `StopProcess` returns nil
exactly when the three of them returned nil.  It goes on as long as it can:
`FreeConsole` is always entered, `AttachConsole` is entered whenever
`FreeConsole` returned nil and `GenerateConsoleCtrlEvent` whenever
`AttachConsole` returned nil, so that a run is one of three: the detach
failed, the detach succeeded and the attach failed, or all three ran and the
result is that of the broadcast.  Each step runs from the world the step
before left, and the native calls made are an initial part of FreeConsole
with 0, AttachConsole with the pid, GenerateConsoleCtrlEvent with 0 and 0,
the whole of it when nil is returned. -/
theorem StopProcess_fixed_order {σ : Type} (os : OS σ) (p : Process) (w : World σ) :
    (StopProcess os p w).2.trace = w.trace ++ emitted (StopProcess os p) w ∧
    entered (emitted (StopProcess os p) w) <+:
      [.FreeConsole, .AttachConsole p.Pid, .GenerateConsoleCtrlEvent] ∧
    entered (emitted (StopProcess os p) w) ≠ [] ∧
    (returned (emitted (StopProcess os p) w)).map Prod.fst =
      entered (emitted (StopProcess os p) w) ∧
    ((StopProcess os p w).1 = none ↔
      returned (emitted (StopProcess os p) w) =
        [(.FreeConsole, none), (.AttachConsole p.Pid, none),
          (.GenerateConsoleCtrlEvent, none)]) ∧
    Fn.FreeConsole ∈ entered (emitted (StopProcess os p) w) ∧
    ((Fn.FreeConsole, none) ∈ returned (emitted (StopProcess os p) w) →
      Fn.AttachConsole p.Pid ∈ entered (emitted (StopProcess os p) w)) ∧
    ((Fn.AttachConsole p.Pid, none) ∈ returned (emitted (StopProcess os p) w) →
      Fn.GenerateConsoleCtrlEvent ∈ entered (emitted (StopProcess os p) w)) ∧
    ((∃ e, (StopProcess os p w).1 = some e ∧
        entered (emitted (StopProcess os p) w) = [.FreeConsole] ∧
        returned (emitted (StopProcess os p) w) = [(.FreeConsole, some e)]) ∨
      (∃ e, (StopProcess os p w).1 = some e ∧
        entered (emitted (StopProcess os p) w) = [.FreeConsole, .AttachConsole p.Pid] ∧
        returned (emitted (StopProcess os p) w) =
          [(.FreeConsole, none), (.AttachConsole p.Pid, some e)]) ∨
      (entered (emitted (StopProcess os p) w) =
          [.FreeConsole, .AttachConsole p.Pid, .GenerateConsoleCtrlEvent] ∧
        returned (emitted (StopProcess os p) w) =
          [(.FreeConsole, none), (.AttachConsole p.Pid, none),
            (.GenerateConsoleCtrlEvent, (StopProcess os p w).1)])) ∧
    natives (emitted (StopProcess os p) w) <+:
      [("FreeConsole", [0]), ("AttachConsole", [uintptr os.word p.Pid]),
        ("GenerateConsoleCtrlEvent", [0, 0])] ∧
    ((StopProcess os p w).1 = none →
      natives (emitted (StopProcess os p) w) =
        [("FreeConsole", [0]), ("AttachConsole", [uintptr os.word p.Pid]),
          ("GenerateConsoleCtrlEvent", [0, 0])]) ∧
    ((∃ e, (FreeConsole os w).1 = some e ∧
        StopProcess os p w = (some e, (FreeConsole os w).2)) ∨
      ((FreeConsole os w).1 = none ∧
        ∃ e, (AttachConsole os p.Pid (FreeConsole os w).2).1 = some e ∧
          StopProcess os p w =
            (some e, (AttachConsole os p.Pid (FreeConsole os w).2).2)) ∨
      ((FreeConsole os w).1 = none ∧
        (AttachConsole os p.Pid (FreeConsole os w).2).1 = none ∧
        StopProcess os p w =
          GenerateConsoleCtrlEvent os (AttachConsole os p.Pid (FreeConsole os w).2).2)) := by
  have hc := StopProcess_cases os p w
  rcases StopProcess_trace os p w with ⟨e, t1, s1, hr, ht⟩ | ⟨t1, e, t2, s1, s2, hr, ht⟩ |
    ⟨t1, t2, t3, s1, s2, s3, ht⟩
  · rw [emitted_eq _ _ _ ht]
    refine ⟨?_, ?_, ?_, ?_, ?_, ?_, ?_, ?_, ?_, ?_, ?_, hc⟩ <;>
      rcases s1.natives_or with hn | hn <;>
      simp [ht, hr, s1.entered_eq, s1.returned_eq, hn]
  · rw [emitted_eq _ _ _ ht]
    obtain ⟨-, hn1⟩ := s1.of_ok rfl
    refine ⟨?_, ?_, ?_, ?_, ?_, ?_, ?_, ?_, ?_, ?_, ?_, hc⟩ <;>
      rcases s2.natives_or with hn | hn <;>
      simp [ht, hr, entered_append, returned_append, natives_append, s1.entered_eq,
        s1.returned_eq, s2.entered_eq, s2.returned_eq, hn, hn1]
  · rw [emitted_eq _ _ _ ht]
    obtain ⟨-, hn1⟩ := s1.of_ok rfl
    obtain ⟨-, hn2⟩ := s2.of_ok rfl
    refine ⟨?_, ?_, ?_, ?_, ?_, ?_, ?_, ?_, ?_, ?_, ?_, hc⟩
    case refine_11 =>
      intro hok
      simp [natives_append, hn1, hn2, (s3.of_ok hok).2]
    all_goals
      rcases s3.natives_or with hn | hn <;>
      simp [ht, entered_append, returned_append, natives_append, s1.entered_eq,
        s1.returned_eq, s2.entered_eq, s2.returned_eq, s3.entered_eq, s3.returned_eq,
        hn, hn1, hn2]

/-- C1, witness: on the demonstration host a caller with a console stops
process 7: the three steps are entered in order and all return nil; stopping
process 8, which has no console, enters the attach after the detach and stops
there. -/
theorem StopProcess_fixed_order_witness :
    returned (emitted (StopProcess demoHost.toOS ⟨7⟩) homeWorld) =
      [(.FreeConsole, none), (.AttachConsole 7, none), (.GenerateConsoleCtrlEvent, none)] ∧
    Fn.GenerateConsoleCtrlEvent ∈ entered (emitted (StopProcess demoHost.toOS ⟨7⟩) homeWorld) ∧
    Fn.AttachConsole 8 ∈ entered (emitted (StopProcess demoHost.toOS ⟨8⟩) homeWorld) ∧
    natives (emitted (StopProcess demoHost.toOS ⟨7⟩) homeWorld) =
      [("FreeConsole", [0]), ("AttachConsole", [uintptr demoHost.toOS.word 7]),
        ("GenerateConsoleCtrlEvent", [0, 0])] :=
  ⟨(StopProcess_fixed_order demoHost.toOS ⟨7⟩ homeWorld).2.2.2.2.1.mp (by decide),
    (StopProcess_fixed_order demoHost.toOS ⟨7⟩ homeWorld).2.2.2.2.2.2.2.1 (by decide),
    (StopProcess_fixed_order demoHost.toOS ⟨8⟩ homeWorld).2.2.2.2.2.2.1 (by decide),
    (StopProcess_fixed_order demoHost.toOS ⟨7⟩ homeWorld).2.2.2.2.2.2.2.2.2.2.1 (by decide)⟩

/-- C2: in every run of `StopProcess`, a step that returns an error is the
last one entered and its error is what `StopProcess` returns, as it is: after
a failed `FreeConsole` neither `AttachConsole` nor `GenerateConsoleCtrlEvent`
is entered, resolved or called, and after a failed `AttachConsole`
`GenerateConsoleCtrlEvent` is not entered, resolved or called. -/
theorem StopProcess_aborts_on_first_error {σ : Type} (os : OS σ) (p : Process)
    (w : World σ) (e : GoError) :
    ((Fn.FreeConsole, some e) ∈ returned (emitted (StopProcess os p) w) →
      (StopProcess os p w).1 = some e ∧
      entered (emitted (StopProcess os p) w) = [.FreeConsole] ∧
      (∀ n ∈ finds (emitted (StopProcess os p) w), n = "FreeConsole") ∧
      (∀ c ∈ natives (emitted (StopProcess os p) w), c.1 = "FreeConsole")) ∧
    ((Fn.AttachConsole p.Pid, some e) ∈ returned (emitted (StopProcess os p) w) →
      (StopProcess os p w).1 = some e ∧
      entered (emitted (StopProcess os p) w) = [.FreeConsole, .AttachConsole p.Pid] ∧
      (∀ n ∈ finds (emitted (StopProcess os p) w), n = "FreeConsole" ∨ n = "AttachConsole") ∧
      (∀ c ∈ natives (emitted (StopProcess os p) w),
        c.1 = "FreeConsole" ∨ c.1 = "AttachConsole")) ∧
    ((Fn.GenerateConsoleCtrlEvent, some e) ∈ returned (emitted (StopProcess os p) w) →
      (StopProcess os p w).1 = some e) := by
  rcases StopProcess_trace os p w with ⟨e1, t1, s1, hr, ht⟩ | ⟨t1, e2, t2, s1, s2, hr, ht⟩ |
    ⟨t1, t2, t3, s1, s2, s3, ht⟩
  · rw [emitted_eq _ _ _ ht]
    rcases s1.finds_or with hf | hf <;> rcases s1.natives_or with hn | hn <;>
      simp [hr, s1.entered_eq, s1.returned_eq, hf, hn, eq_comm]
  · rw [emitted_eq _ _ _ ht]
    obtain ⟨hf1, hn1⟩ := s1.of_ok rfl
    rcases s2.finds_or with hf | hf <;> rcases s2.natives_or with hn | hn <;>
      simp [hr, entered_append, returned_append, finds_append, natives_append,
        s1.entered_eq, s1.returned_eq, s2.entered_eq, s2.returned_eq, hf, hn, hf1, hn1,
        eq_comm]
  · rw [emitted_eq _ _ _ ht]
    simp [entered_append, returned_append, s1.entered_eq, s1.returned_eq,
      s2.entered_eq, s2.returned_eq, s3.entered_eq, s3.returned_eq]
    exact fun h => h.symm


theorem wrapper_same {σ : Type} (os : OS σ) (g : Fn) (flag : Bool) (w : World σ) :
    (traced g (SetConsoleCtrlHandler os flag) w).1 = (SetConsoleCtrlHandler os flag w).1 ∧
    (traced g (SetConsoleCtrlHandler os flag) w).2.os = (SetConsoleCtrlHandler os flag w).2.os ∧
    envCalls (emitted (traced g (SetConsoleCtrlHandler os flag)) w) =
      envCalls (emitted (SetConsoleCtrlHandler os flag) w) := by
  rcases hl : os.LoadLibrary "kernel32.dll" w.os with ⟨_ | h, s1⟩
  · simp [emitted, envCalls, traced, SetConsoleCtrlHandler, LoadKernel32, sysLoadDLL,
      World.log, hl]
  · rcases hf : os.GetProcAddress h "SetConsoleCtrlHandler" s1 with ⟨_ | a, s2⟩
    · simp [emitted, envCalls, traced, SetConsoleCtrlHandler, LoadKernel32, sysLoadDLL,
        sysFindProc, World.log, hl, hf]
    · rcases hc : os.Syscall a [0, uintptr os.word (if flag then 1 else 0)] s2 with
        ⟨⟨r, r2, e⟩, s3⟩
      by_cases hr : r = 0 <;>
        simp [emitted, envCalls, traced, SetConsoleCtrlHandler, LoadKernel32, sysLoadDLL,
          sysFindProc, sysCall, World.log, hl, hf, hc, hr]

/-- C4: `SendCtrlC` enters `RemoveConsoleCtrlHandler` (which enters
`SetConsoleCtrlHandler(true)`) and then `GenerateConsoleCtrlEvent`.
When `RemoveConsoleCtrlHandler` returns an error, `SendCtrlC` returns that
error as it is and the broadcast is not entered, resolved or called.
`SendCtrlC` returns nil exactly when both steps returned nil.  The immunize
step is always entered, and the broadcast is entered whenever the immunize
step returned nil, so that a run is one of two: the immunize step failed and
nothing followed, or both steps ran and the result is that of the broadcast,
which runs from the world the immunize step left; a run that returns nil made
the two native calls, `SetConsoleCtrlHandler` with 0 and 1 and then
`GenerateConsoleCtrlEvent` with 0 and 0. -/
theorem SendCtrlC_immunize_then_broadcast {σ : Type} (os : OS σ) (w : World σ) :
    (SendCtrlC os w).2.trace = w.trace ++ emitted (SendCtrlC os) w ∧
    (entered (emitted (SendCtrlC os) w) =
        [.RemoveConsoleCtrlHandler, .SetConsoleCtrlHandler true] ∨
      entered (emitted (SendCtrlC os) w) =
        [.RemoveConsoleCtrlHandler, .SetConsoleCtrlHandler true,
          .GenerateConsoleCtrlEvent]) ∧
    (∀ e, (Fn.RemoveConsoleCtrlHandler, some e) ∈ returned (emitted (SendCtrlC os) w) →
      (SendCtrlC os w).1 = some e ∧
      Fn.GenerateConsoleCtrlEvent ∉ entered (emitted (SendCtrlC os) w) ∧
      (∀ n ∈ finds (emitted (SendCtrlC os) w), n = "SetConsoleCtrlHandler") ∧
      (∀ c ∈ natives (emitted (SendCtrlC os) w), c.1 = "SetConsoleCtrlHandler")) ∧
    ((SendCtrlC os w).1 = none ↔
      returned (emitted (SendCtrlC os) w) =
        [(.SetConsoleCtrlHandler true, none), (.RemoveConsoleCtrlHandler, none),
          (.GenerateConsoleCtrlEvent, none)]) ∧
    ((Fn.RemoveConsoleCtrlHandler, none) ∈ returned (emitted (SendCtrlC os) w) →
      Fn.GenerateConsoleCtrlEvent ∈ entered (emitted (SendCtrlC os) w)) ∧
    ((∃ e, (SendCtrlC os w).1 = some e ∧
        entered (emitted (SendCtrlC os) w) =
          [.RemoveConsoleCtrlHandler, .SetConsoleCtrlHandler true] ∧
        returned (emitted (SendCtrlC os) w) =
          [(.SetConsoleCtrlHandler true, some e), (.RemoveConsoleCtrlHandler, some e)]) ∨
      (entered (emitted (SendCtrlC os) w) =
          [.RemoveConsoleCtrlHandler, .SetConsoleCtrlHandler true,
            .GenerateConsoleCtrlEvent] ∧
        returned (emitted (SendCtrlC os) w) =
          [(.SetConsoleCtrlHandler true, none), (.RemoveConsoleCtrlHandler, none),
            (.GenerateConsoleCtrlEvent, (SendCtrlC os w).1)])) ∧
    ((SendCtrlC os w).1 = none →
      natives (emitted (SendCtrlC os) w) =
        [("SetConsoleCtrlHandler", [0, 1]), ("GenerateConsoleCtrlEvent", [0, 0])]) ∧
    ((∃ e, (RemoveConsoleCtrlHandler os w).1 = some e ∧
        SendCtrlC os w = (some e, (RemoveConsoleCtrlHandler os w).2)) ∨
      ((RemoveConsoleCtrlHandler os w).1 = none ∧
        SendCtrlC os w =
          GenerateConsoleCtrlEvent os (RemoveConsoleCtrlHandler os w).2)) := by
  have hc := SendCtrlC_cases os w
  rcases SendCtrlC_trace os w with ⟨e, t1, s1, hr, ht⟩ | ⟨t1, t2, s1, s2, ht⟩
  · rw [emitted_eq _ _ _ ht]
    refine ⟨?_, ?_, ?_, ?_, ?_, ?_, ?_, hc⟩
    case refine_7 =>
      intro hok
      rw [hr] at hok
      cases hok
    case refine_3 =>
      rcases s1.finds_or with hf | hf <;> rcases s1.natives_or with hn | hn <;>
        simp [hr, entered, returned, finds, natives, entered_append, returned_append,
          finds_append, natives_append, s1.entered_eq, s1.returned_eq, hf, hn, eq_comm]
    all_goals
      simp [ht, hr, entered, returned, entered_append, returned_append,
        s1.entered_eq, s1.returned_eq]
  · rw [emitted_eq _ _ _ ht]
    obtain ⟨-, hn1⟩ := s1.of_ok rfl
    refine ⟨?_, ?_, ?_, ?_, ?_, ?_, ?_, hc⟩
    case refine_7 =>
      intro hok
      simp [natives, natives_append, hn1, (s2.of_ok hok).2]
    all_goals
      simp [ht, entered, returned, entered_append, returned_append,
        s1.entered_eq, s1.returned_eq, s2.entered_eq, s2.returned_eq]

/-- C5: `SendCtrlC` never clears the immunity it sets.  In every run it enters
neither `RestoreConsoleCtrlHandler` nor `SetConsoleCtrlHandler(false)`, and the
only calls it makes are `SetConsoleCtrlHandler` with add flag 1 and the
broadcast.  On the console model of the specification, whenever the immunize
step returned nil the caller is immune when `SendCtrlC` returns, whatever it
returns, and a later `RestoreConsoleCtrlHandler` returns nil and leaves the
caller targetable. -/
theorem SendCtrlC_keeps_immunity {σ : Type} (os : OS σ) (w : World σ)
    (h : Host) (c : World Console) :
    (Fn.RestoreConsoleCtrlHandler ∉ entered (emitted (SendCtrlC os) w) ∧
      Fn.SetConsoleCtrlHandler false ∉ entered (emitted (SendCtrlC os) w) ∧
      (∀ n ∈ natives (emitted (SendCtrlC os) w),
        n = ("SetConsoleCtrlHandler", [0, 1]) ∨ n = ("GenerateConsoleCtrlEvent", [0, 0]))) ∧
    ((RemoveConsoleCtrlHandler h.toOS c).1 = none →
      (SendCtrlC h.toOS c).2.os.immune = true ∧
      (RestoreConsoleCtrlHandler h.toOS (SendCtrlC h.toOS c).2).1 = none ∧
      (RestoreConsoleCtrlHandler h.toOS (SendCtrlC h.toOS c).2).2.os.immune = false) := by
  constructor
  · rcases SendCtrlC_trace os w with ⟨e, t1, s1, hr, ht⟩ | ⟨t1, t2, s1, s2, ht⟩
    · rw [emitted_eq _ _ _ ht]
      rcases s1.natives_or with hn | hn <;>
        simp [entered, natives, entered_append, natives_append, s1.entered_eq, hn]
    · rw [emitted_eq _ _ _ ht]
      rcases s1.natives_or with hn | hn <;> rcases s2.natives_or with hm | hm <;>
        simp [entered, natives, entered_append, natives_append, s1.entered_eq,
          s2.entered_eq, hn, hm]
  · obtain ⟨⟨att, imm, rs⟩, tr⟩ := c
    cases ht : h.rejectToggle <;> cases att <;>
      simp [SendCtrlC, RemoveConsoleCtrlHandler, RestoreConsoleCtrlHandler,
        SetConsoleCtrlHandler, GenerateConsoleCtrlEvent, traced, LoadKernel32, sysLoadDLL,
        sysFindProc, sysCall, Host.toOS, entryPoint, Host.Syscall, World.log, ht,
        uintptr_zero, uintptr_one, CTRL_C_EVENT]

/-- C6: `RemoveConsoleCtrlHandler` is `SetConsoleCtrlHandler(true)` and
`RestoreConsoleCtrlHandler` is `SetConsoleCtrlHandler(false)`: from every
world and for every behaviour of the operating system they return the same
error, leave the operating system in the same state and make the same
environment calls (the trace differs by the entry and return of the helper
itself).  `SetConsoleCtrlHandler(flag)` loads the library, resolves its entry
point and calls it, each step if the one before succeeded; the call, made
whenever the library loads and the entry point resolves, has a null handler
and the add flag 1 for true and 0 for false, and it is the only native call.
On the console model of the specification the call is made for either flag,
it returns nil unless the system rejects the toggle, and a successful call
with true leaves the caller immune and one with false leaves it
targetable. -/
theorem handler_helpers_are_SetConsoleCtrlHandler {σ : Type} (os : OS σ) (w : World σ)
    (flag : Bool) (h : Host) (c : World Console) :
    ((RemoveConsoleCtrlHandler os w).1 = (SetConsoleCtrlHandler os true w).1 ∧
      (RemoveConsoleCtrlHandler os w).2.os = (SetConsoleCtrlHandler os true w).2.os ∧
      envCalls (emitted (RemoveConsoleCtrlHandler os) w) =
        envCalls (emitted (SetConsoleCtrlHandler os true) w)) ∧
    ((RestoreConsoleCtrlHandler os w).1 = (SetConsoleCtrlHandler os false w).1 ∧
      (RestoreConsoleCtrlHandler os w).2.os = (SetConsoleCtrlHandler os false w).2.os ∧
      envCalls (emitted (RestoreConsoleCtrlHandler os) w) =
        envCalls (emitted (SetConsoleCtrlHandler os false) w)) ∧
    (natives (emitted (SetConsoleCtrlHandler os flag) w) = [] ∨
      natives (emitted (SetConsoleCtrlHandler os flag) w) =
        [("SetConsoleCtrlHandler", [0, if flag then 1 else 0])]) ∧
    ((SetConsoleCtrlHandler os flag w).1 = none →
      natives (emitted (SetConsoleCtrlHandler os flag) w) =
        [("SetConsoleCtrlHandler", [0, if flag then 1 else 0])]) ∧
    ((SetConsoleCtrlHandler h.toOS flag c).1 = none →
      (SetConsoleCtrlHandler h.toOS flag c).2.os.immune = flag) ∧
    ResolvesAfresh os (SetConsoleCtrlHandler os flag) "SetConsoleCtrlHandler"
      [0, if flag then 1 else 0] w ∧
    (∀ (l : Nat) (s1 : σ) (a : Nat) (s2 : σ),
      os.LoadLibrary "kernel32.dll" w.os = (.ok l, s1) →
      os.GetProcAddress l "SetConsoleCtrlHandler" s1 = (.ok a, s2) →
      natives (emitted (SetConsoleCtrlHandler os flag) w) =
        [("SetConsoleCtrlHandler", [0, if flag then 1 else 0])]) ∧
    (∀ (l : Nat) (s1 : σ) (a : Nat) (s2 : σ),
      os.LoadLibrary "kernel32.dll" w.os = (.ok l, s1) →
      os.GetProcAddress l "SetConsoleCtrlHandler" s1 = (.ok a, s2) →
      natives (emitted (RemoveConsoleCtrlHandler os) w) =
        [("SetConsoleCtrlHandler", [0, 1])] ∧
      natives (emitted (RestoreConsoleCtrlHandler os) w) =
        [("SetConsoleCtrlHandler", [0, 0])]) ∧
    (natives (emitted (SetConsoleCtrlHandler h.toOS flag) c) =
        [("SetConsoleCtrlHandler", [0, if flag then 1 else 0])] ∧
      (h.rejectToggle = false →
        (SetConsoleCtrlHandler h.toOS flag c).1 = none ∧
        (SetConsoleCtrlHandler h.toOS flag c).2.os.immune = flag)) := by
  refine ⟨wrapper_same os _ true w, wrapper_same os _ false w, ?_, ?_, ?_,
    (SetConsoleCtrlHandler_ran os flag w).afresh, ?_, ?_, ?_⟩
  · obtain ⟨t, ht, st⟩ := (SetConsoleCtrlHandler_ran os flag w).summary
    rw [emitted_eq _ _ _ ht]
    exact st.natives_or
  · intro hr
    obtain ⟨t, ht, st⟩ := (SetConsoleCtrlHandler_ran os flag w).summary
    rw [emitted_eq _ _ _ ht]
    exact (st.of_ok hr).2
  · obtain ⟨⟨att, imm, rs⟩, tr⟩ := c
    cases ht : h.rejectToggle <;> cases flag <;>
      simp [SetConsoleCtrlHandler, traced, LoadKernel32, sysLoadDLL,
        sysFindProc, sysCall, Host.toOS, entryPoint, Host.Syscall, World.log, ht,
        uintptr_zero, uintptr_one]
  · intro l s1 a s2 hl hf
    exact (SetConsoleCtrlHandler_ran os flag w).natives_of_resolved hl hf
  · intro l s1 a s2 hl hf
    have h1 := (SetConsoleCtrlHandler_ran os true w).natives_of_resolved hl hf
    have h0 := (SetConsoleCtrlHandler_ran os false w).natives_of_resolved hl hf
    constructor
    · rw [← natives_envCalls, show RemoveConsoleCtrlHandler os =
        traced .RemoveConsoleCtrlHandler (SetConsoleCtrlHandler os true) from rfl,
        (wrapper_same os .RemoveConsoleCtrlHandler true w).2.2, natives_envCalls]
      simpa using h1
    · rw [← natives_envCalls, show RestoreConsoleCtrlHandler os =
        traced .RestoreConsoleCtrlHandler (SetConsoleCtrlHandler os false) from rfl,
        (wrapper_same os .RestoreConsoleCtrlHandler false w).2.2, natives_envCalls]
      simpa using h0
  · obtain ⟨⟨att, imm, rs⟩, tr⟩ := c
    cases ht : h.rejectToggle <;> cases flag <;>
      simp [emitted, natives, SetConsoleCtrlHandler, traced, LoadKernel32, sysLoadDLL,
        sysFindProc, sysCall, Host.toOS, entryPoint, Host.Syscall, World.log, ht,
        uintptr_zero, uintptr_one]

/-- C7: each of the five primitives, run with the library loading and its
entry point resolving, returns nil exactly when the native call returns a
nonzero value, and on a zero return it returns the last error of that call
wrapped under the primitive's context: the result is a function of what the
native call returns alone.  The same holds of `RestoreConsoleCtrlHandler`, so
that clearing the immunity succeeds whenever the call does; on the console
model of the specification, clearing it for a caller that is already
targetable returns nil and leaves it targetable. -/
theorem primitives_report_native_return {σ : Type} (os : OS σ) (pid : Int) (flag : Bool)
    (w : World σ) (h : Host) (c : World Console) :
    ReportsNativeReturn os (FreeConsole os) "FreeConsole" [0] "freeConsole: " w ∧
    ReportsNativeReturn os (AttachConsole os pid) "AttachConsole" [uintptr os.word pid]
      "attachConsole: " w ∧
    ReportsNativeReturn os (AllocConsole os) "AllocConsole" [0] "allocConsole: " w ∧
    ReportsNativeReturn os (SetConsoleCtrlHandler os flag) "SetConsoleCtrlHandler"
      [0, if flag then 1 else 0] "setConsoleCtrlHandler: " w ∧
    ReportsNativeReturn os (GenerateConsoleCtrlEvent os) "GenerateConsoleCtrlEvent"
      [0, 0] "generateConsoleCtrlEvent: " w ∧
    ReportsNativeReturn os (RestoreConsoleCtrlHandler os) "SetConsoleCtrlHandler"
      [0, 0] "setConsoleCtrlHandler: " w ∧
    (h.rejectToggle = false → c.os.immune = false →
      (RestoreConsoleCtrlHandler h.toOS c).1 = none ∧
      (RestoreConsoleCtrlHandler h.toOS c).2.os.immune = false) := by
  refine ⟨(FreeConsole_ran os w).reports, (AttachConsole_ran os pid w).reports,
    (AllocConsole_ran os w).reports, (SetConsoleCtrlHandler_ran os flag w).reports,
    (GenerateConsoleCtrlEvent_ran os w).reports, ?_, ?_⟩
  · have hs : ReportsNativeReturn os (SetConsoleCtrlHandler os false) "SetConsoleCtrlHandler"
        [0, 0] "setConsoleCtrlHandler: " w := by
      simpa using (SetConsoleCtrlHandler_ran os false w).reports
    intro h s1 a s2 r r2 e s3 hl hf hc
    have hw : (RestoreConsoleCtrlHandler os w).1 = (SetConsoleCtrlHandler os false w).1 :=
      (wrapper_same os .RestoreConsoleCtrlHandler false w).1
    rw [hw]
    exact hs h s1 a s2 r r2 e s3 hl hf hc
  · obtain ⟨⟨att, imm, rs⟩, tr⟩ := c
    intro ht hi
    simp [RestoreConsoleCtrlHandler, SetConsoleCtrlHandler, traced, LoadKernel32, sysLoadDLL,
      sysFindProc, sysCall, Host.toOS, entryPoint, Host.Syscall, World.log, ht,
      uintptr_zero]

/-- C7, witness: on the demonstration host a caller with a console detaches
(the native call returns 1 and `FreeConsole` returns nil) and a caller without
one does not (the native call returns 0 and `FreeConsole` returns the wrapped
last error). -/
theorem primitives_report_native_return_witness :
    ((FreeConsole demoHost.toOS homeWorld).1 = none ↔ (1 : Nat) ≠ 0) ∧
    (FreeConsole demoHost.toOS bareWorld).1 =
      some (.wrapError ("freeConsole: " ++ errInvalid.text) (.errno errInvalid)) :=
  ⟨((primitives_report_native_return demoHost.toOS 7 true homeWorld demoHost homeWorld).1
      1 homeWorld.os 1 homeWorld.os 1 0 errSuccess ⟨none, false, []⟩ rfl rfl rfl).1,
    ((primitives_report_native_return demoHost.toOS 7 true bareWorld demoHost homeWorld).1
      1 bareWorld.os 1 bareWorld.os 0 0 errInvalid bareWorld.os rfl rfl rfl).2.1 rfl⟩

/-- C8, counterexample: when the library does not load, `FreeConsole` and
`AttachConsole` return the same error, whose context is `loadDLL` and names
neither primitive. -/
theorem load_error_names_no_primitive :
    (FreeConsole noLibrary blankWorld).1 = (AttachConsole noLibrary 7 blankWorld).1 ∧
    (FreeConsole noLibrary blankWorld).1 =
      some (.wrapError "loadDLL: The specified module could not be found."
        (.errno ⟨126, "The specified module could not be found."⟩)) := by
  decide

/-- C8, amended: the error a primitive returns carries the context of the step
that failed and the text of the error of the operating system as it is.  A
failed load gives that error wrapped under `loadDLL: `, the same for every
primitive; a failed resolution gives an error whose message is `findProc: `
followed by the text of the error of the resolution; a zero return of the
native call gives the last error wrapped under the primitive's own name
(`freeConsole: `, `attachConsole: `, `allocConsole: `,
`setConsoleCtrlHandler: `, `generateConsoleCtrlEvent: `). -/
theorem primitive_errors_carry_context {σ : Type} (os : OS σ) (pid : Int) (flag : Bool)
    (w : World σ) :
    CarriesContext os (FreeConsole os) "FreeConsole" [0] "freeConsole: " w ∧
    CarriesContext os (AttachConsole os pid) "AttachConsole" [uintptr os.word pid]
      "attachConsole: " w ∧
    CarriesContext os (AllocConsole os) "AllocConsole" [0] "allocConsole: " w ∧
    CarriesContext os (SetConsoleCtrlHandler os flag) "SetConsoleCtrlHandler"
      [0, if flag then 1 else 0] "setConsoleCtrlHandler: " w ∧
    CarriesContext os (GenerateConsoleCtrlEvent os) "GenerateConsoleCtrlEvent"
      [0, 0] "generateConsoleCtrlEvent: " w :=
  ⟨(FreeConsole_ran os w).carries (fun _ => rfl),
    (AttachConsole_ran os pid w).carries (fun _ => rfl),
    (AllocConsole_ran os w).carries (fun _ => rfl),
    (SetConsoleCtrlHandler_ran os flag w).carries (fun _ => rfl),
    (GenerateConsoleCtrlEvent_ran os w).carries (fun _ => rfl)⟩

/-- C8, witness: the three causes at concrete inputs: the library does not
load, the entry point does not resolve, the native call returns zero. -/
theorem primitive_errors_carry_context_witness :
    (AttachConsole noLibrary 7 blankWorld).1 =
      some (.wrapError ("loadDLL: " ++ "The specified module could not be found.")
        (.errno ⟨126, "The specified module could not be found."⟩)) ∧
    (∃ g, (AttachConsole noEntryPoints 7 blankWorld).1 = some g ∧
      g.Error = "findProc: " ++ "The specified procedure could not be found.") ∧
    (AttachConsole demoHost.toOS 8 bareWorld).1 =
      some (.wrapError ("attachConsole: " ++ errInvalid.text) (.errno errInvalid)) :=
  ⟨(primitive_errors_carry_context noLibrary 7 true blankWorld).2.1.1
      ⟨126, "The specified module could not be found."⟩ () rfl,
    (primitive_errors_carry_context noEntryPoints 7 true blankWorld).2.1.2.1
      1 () ⟨127, "The specified procedure could not be found."⟩ () rfl rfl,
    (primitive_errors_carry_context demoHost.toOS 8 true bareWorld).2.1.2.2
      1 bareWorld.os 2 bareWorld.os 0 errInvalid bareWorld.os rfl rfl rfl⟩

/-- C10: every call of a primitive, from any world, loads `kernel32.dll`
itself and then resolves its own entry point by name in the library it just
loaded before calling it; when the load or the resolution fails nothing is
called and an error is returned.  A run of `StopProcess` that returns nil
loaded the library three times and resolved the three entry points, in
order. -/
theorem primitives_resolve_afresh {σ : Type} (os : OS σ) (p : Process) (flag : Bool)
    (w : World σ) :
    ResolvesAfresh os (FreeConsole os) "FreeConsole" [0] w ∧
    ResolvesAfresh os (AttachConsole os p.Pid) "AttachConsole" [uintptr os.word p.Pid] w ∧
    ResolvesAfresh os (AllocConsole os) "AllocConsole" [0] w ∧
    ResolvesAfresh os (SetConsoleCtrlHandler os flag) "SetConsoleCtrlHandler"
      [0, if flag then 1 else 0] w ∧
    ResolvesAfresh os (GenerateConsoleCtrlEvent os) "GenerateConsoleCtrlEvent" [0, 0] w ∧
    ((StopProcess os p w).1 = none →
      loads (emitted (StopProcess os p) w) =
        ["kernel32.dll", "kernel32.dll", "kernel32.dll"] ∧
      finds (emitted (StopProcess os p) w) =
        ["FreeConsole", "AttachConsole", "GenerateConsoleCtrlEvent"] ∧
      natives (emitted (StopProcess os p) w) =
        [("FreeConsole", [0]), ("AttachConsole", [uintptr os.word p.Pid]),
          ("GenerateConsoleCtrlEvent", [0, 0])]) := by
  refine ⟨(FreeConsole_ran os w).afresh, (AttachConsole_ran os p.Pid w).afresh,
    (AllocConsole_ran os w).afresh, (SetConsoleCtrlHandler_ran os flag w).afresh,
    (GenerateConsoleCtrlEvent_ran os w).afresh, ?_⟩
  intro hok
  rcases StopProcess_trace os p w with ⟨e, t1, s1, hr, ht⟩ | ⟨t1, e, t2, s1, s2, hr, ht⟩ |
    ⟨t1, t2, t3, s1, s2, s3, ht⟩
  · rw [hok] at hr; cases hr
  · rw [hok] at hr; cases hr
  · rw [emitted_eq _ _ _ ht]
    obtain ⟨hf1, hn1⟩ := s1.of_ok rfl
    obtain ⟨hf2, hn2⟩ := s2.of_ok rfl
    obtain ⟨hf3, hn3⟩ := s3.of_ok hok
    simp [loads_append, finds_append, natives_append, s1.loads_eq, s2.loads_eq, s3.loads_eq,
      hf1, hf2, hf3, hn1, hn2, hn3]

/-- C10, witness: on the demonstration host `StopProcess` of process 7 returns
nil for a caller with a console, after three loads and three resolutions. -/
theorem primitives_resolve_afresh_witness :
    loads (emitted (StopProcess demoHost.toOS ⟨7⟩) homeWorld) =
      ["kernel32.dll", "kernel32.dll", "kernel32.dll"] ∧
    finds (emitted (StopProcess demoHost.toOS ⟨7⟩) homeWorld) =
      ["FreeConsole", "AttachConsole", "GenerateConsoleCtrlEvent"] :=
  ⟨((primitives_resolve_afresh demoHost.toOS ⟨7⟩ true homeWorld).2.2.2.2.2 (by decide)).1,
    ((primitives_resolve_afresh demoHost.toOS ⟨7⟩ true homeWorld).2.2.2.2.2 (by decide)).2.1⟩


/-- C2, witness: on the demonstration host process 8 has no console, so that
`AttachConsole` fails after a successful detach: `StopProcess` returns its
error and enters nothing after it. -/
theorem StopProcess_aborts_on_first_error_witness :
    (StopProcess demoHost.toOS ⟨8⟩ homeWorld).1 =
      some (.wrapError "attachConsole: The handle is invalid." (.errno errInvalid)) ∧
    entered (emitted (StopProcess demoHost.toOS ⟨8⟩) homeWorld) =
      [.FreeConsole, .AttachConsole 8] :=
  ⟨((StopProcess_aborts_on_first_error demoHost.toOS ⟨8⟩ homeWorld
      (.wrapError "attachConsole: The handle is invalid." (.errno errInvalid))).2.1
      (by decide)).1,
    ((StopProcess_aborts_on_first_error demoHost.toOS ⟨8⟩ homeWorld
      (.wrapError "attachConsole: The handle is invalid." (.errno errInvalid))).2.1
      (by decide)).2.1⟩

/-- C4, witness: on a host that rejects the toggle `SendCtrlC` returns the
error of `RemoveConsoleCtrlHandler` and does not enter the broadcast; on the
demonstration host the immunize step returns nil for a caller with a console,
the broadcast is entered after it and both native calls are made. -/
theorem SendCtrlC_immunize_then_broadcast_witness :
    (SendCtrlC strictHost.toOS homeWorld).1 =
      some (.wrapError "setConsoleCtrlHandler: Access is denied." (.errno errRefused)) ∧
    Fn.GenerateConsoleCtrlEvent ∉ entered (emitted (SendCtrlC strictHost.toOS) homeWorld) ∧
    Fn.GenerateConsoleCtrlEvent ∈ entered (emitted (SendCtrlC demoHost.toOS) homeWorld) ∧
    natives (emitted (SendCtrlC demoHost.toOS) homeWorld) =
      [("SetConsoleCtrlHandler", [0, 1]), ("GenerateConsoleCtrlEvent", [0, 0])] :=
  ⟨((SendCtrlC_immunize_then_broadcast strictHost.toOS homeWorld).2.2.1
      (.wrapError "setConsoleCtrlHandler: Access is denied." (.errno errRefused))
      (by decide)).1,
    ((SendCtrlC_immunize_then_broadcast strictHost.toOS homeWorld).2.2.1
      (.wrapError "setConsoleCtrlHandler: Access is denied." (.errno errRefused))
      (by decide)).2.1,
    (SendCtrlC_immunize_then_broadcast demoHost.toOS homeWorld).2.2.2.2.1 (by decide),
    (SendCtrlC_immunize_then_broadcast demoHost.toOS homeWorld).2.2.2.2.2.2.1 (by decide)⟩

/-- C5, witness: on the demonstration host a caller without a console becomes
immune, the broadcast fails, and the caller is still immune when `SendCtrlC`
returns. -/
theorem SendCtrlC_keeps_immunity_witness :
    (SendCtrlC demoHost.toOS bareWorld).1 ≠ none ∧
    (SendCtrlC demoHost.toOS bareWorld).2.os.immune = true :=
  ⟨by decide,
    ((SendCtrlC_keeps_immunity demoHost.toOS bareWorld demoHost bareWorld).2
      (by decide)).1⟩

/-- C6, witness: on the demonstration host `SetConsoleCtrlHandler(true)`
returns nil, calls its entry point with the arguments 0 and 1, and leaves the
caller immune; `SetConsoleCtrlHandler(false)` calls it with the arguments 0
and 0, as `RestoreConsoleCtrlHandler` does, and leaves the caller
targetable. -/
theorem handler_helpers_are_SetConsoleCtrlHandler_witness :
    natives (emitted (SetConsoleCtrlHandler demoHost.toOS true) homeWorld) =
      [("SetConsoleCtrlHandler", [0, if true then 1 else 0])] ∧
    (SetConsoleCtrlHandler demoHost.toOS true homeWorld).2.os.immune = true ∧
    natives (emitted (SetConsoleCtrlHandler demoHost.toOS false) homeWorld) =
      [("SetConsoleCtrlHandler", [0, if false then 1 else 0])] ∧
    natives (emitted (RestoreConsoleCtrlHandler demoHost.toOS) homeWorld) =
      [("SetConsoleCtrlHandler", [0, 0])] ∧
    (SetConsoleCtrlHandler demoHost.toOS false homeWorld).2.os.immune = false :=
  ⟨(handler_helpers_are_SetConsoleCtrlHandler demoHost.toOS homeWorld true demoHost
      homeWorld).2.2.2.1 (by decide),
    (handler_helpers_are_SetConsoleCtrlHandler demoHost.toOS homeWorld true demoHost
      homeWorld).2.2.2.2.1 (by decide),
    (handler_helpers_are_SetConsoleCtrlHandler demoHost.toOS homeWorld false demoHost
      homeWorld).2.2.2.2.2.2.1 1 homeWorld.os 4 homeWorld.os rfl rfl,
    ((handler_helpers_are_SetConsoleCtrlHandler demoHost.toOS homeWorld false demoHost
      homeWorld).2.2.2.2.2.2.2.1 1 homeWorld.os 4 homeWorld.os rfl rfl).2,
    ((handler_helpers_are_SetConsoleCtrlHandler demoHost.toOS homeWorld false demoHost
      homeWorld).2.2.2.2.2.2.2.2.2 rfl).2⟩

end SignalWindows
